import Mathlib

/-!
Verification development for the H(curl-div) finite-element core
(`fem/hcurldivfe.hpp`): second-order forward-mode AD numbers, the
shape-function building blocks, the triangle/tetrahedron basis assemblers,
the surface trace element and the mapping layer, embedded shallowly over ℚ.
-/

namespace HCurlDiv

/-- `AutoDiffDiff<2>`: value, first derivatives `DValue(0) = dx`,
`DValue(1) = dy`, and second derivatives `DDValue(i,j)`
(`dxy = DDValue(0,1)`, `dyx = DDValue(1,0)`), over exact rationals. -/
structure AD2 where
  val : ℚ
  dx : ℚ
  dy : ℚ
  dxx : ℚ
  dxy : ℚ
  dyx : ℚ
  dyy : ℚ
deriving DecidableEq, Repr

namespace AD2

/-- Constant (all derivatives zero). -/
def c (q : ℚ) : AD2 := ⟨q, 0, 0, 0, 0, 0, 0⟩

/-- `AutoDiffDiff<2>(v, 0)`: the coordinate `x` seeded with unit derivative
in direction 0. -/
def var0 (q : ℚ) : AD2 := ⟨q, 1, 0, 0, 0, 0, 0⟩

/-- `AutoDiffDiff<2>(v, 1)`: the coordinate `y` seeded with unit derivative
in direction 1. -/
def var1 (q : ℚ) : AD2 := ⟨q, 0, 1, 0, 0, 0, 0⟩

instance : Add AD2 :=
  ⟨fun a b => ⟨a.val + b.val, a.dx + b.dx, a.dy + b.dy,
    a.dxx + b.dxx, a.dxy + b.dxy, a.dyx + b.dyx, a.dyy + b.dyy⟩⟩

instance : Sub AD2 :=
  ⟨fun a b => ⟨a.val - b.val, a.dx - b.dx, a.dy - b.dy,
    a.dxx - b.dxx, a.dxy - b.dxy, a.dyx - b.dyx, a.dyy - b.dyy⟩⟩

instance : Neg AD2 :=
  ⟨fun a => ⟨-a.val, -a.dx, -a.dy, -a.dxx, -a.dxy, -a.dyx, -a.dyy⟩⟩

/-- Product rule to second order, as in `AutoDiffDiff<D>::operator*`:
`DDValue(i,j) = x.DD(i,j)*y + x.D(i)*y.D(j) + x.D(j)*y.D(i) + x*y.DD(i,j)`. -/
instance : Mul AD2 :=
  ⟨fun a b => ⟨a.val * b.val,
    a.dx * b.val + a.val * b.dx,
    a.dy * b.val + a.val * b.dy,
    a.dxx * b.val + a.dx * b.dx + a.dx * b.dx + a.val * b.dxx,
    a.dxy * b.val + a.dx * b.dy + a.dy * b.dx + a.val * b.dxy,
    a.dyx * b.val + a.dy * b.dx + a.dx * b.dy + a.val * b.dyx,
    a.dyy * b.val + a.dy * b.dy + a.dy * b.dy + a.val * b.dyy⟩⟩

/-- Scalar multiple (multiplication by a plain number). -/
def scale (q : ℚ) (a : AD2) : AD2 :=
  ⟨q * a.val, q * a.dx, q * a.dy, q * a.dxx, q * a.dxy, q * a.dyx, q * a.dyy⟩

end AD2

/-- A flattened 2×2 shape tensor (`Vec<4>`, row-major). -/
structure Vec4 where
  e0 : ℚ
  e1 : ℚ
  e2 : ℚ
  e3 : ℚ
deriving DecidableEq, Repr

/-- Entry access for `Vec4`. -/
def Vec4.get (v : Vec4) : Fin 4 → ℚ
  | 0 => v.e0
  | 1 => v.e1
  | 2 => v.e2
  | 3 => v.e3

/-- A 2-vector (`Vec<2>`) holding a divergence value. -/
structure Vec2 where
  e0 : ℚ
  e1 : ℚ
deriving DecidableEq, Repr

/-- Entry access for `Vec2`. -/
def Vec2.get (v : Vec2) : Fin 2 → ℚ
  | 0 => v.e0
  | 1 => v.e1

/-- Decidable equality of `Except` results, for concrete evaluation. -/
instance {ε α : Type} [DecidableEq ε] [DecidableEq α] : DecidableEq (Except ε α)
  | .error a, .error b =>
    if h : a = b then .isTrue (by rw [h]) else .isFalse (by simp [h])
  | .error _, .ok _ => .isFalse (by simp)
  | .ok _, .error _ => .isFalse (by simp)
  | .ok a, .ok b =>
    if h : a = b then .isTrue (by rw [h]) else .isFalse (by simp [h])

/- ############### edge basis functions - div-free ###############
   sigma(grad v) = Curl(grad v) -/

namespace Sigma_gradv

/-- `Sigma_gradv::Shape`. -/
def Shape (v : AD2) : Vec4 :=
  ⟨-v.dxy, v.dxx, -v.dyy, v.dxy⟩

/-- `Sigma_gradv::DivShape`: the zero vector, unconditionally. -/
def DivShape (_v : AD2) : Vec2 := ⟨0, 0⟩

end Sigma_gradv

/- ############### Type 1 - inner basis functions - div-free ############### -/

namespace Sigma_gradu_v

/-- `Sigma_gradu_v::Shape`. -/
def Shape (u v : AD2) : Vec4 :=
  ⟨-u.dyx * v.val - v.dy * u.dx,
   u.dxx * v.val + v.dx * u.dx,
   -u.dyy * v.val - v.dy * u.dy,
   u.dxy * v.val + v.dx * u.dy⟩

/-- `Sigma_gradu_v::DivShape`: the zero vector, unconditionally. -/
def DivShape (_u _v : AD2) : Vec2 := ⟨0, 0⟩

end Sigma_gradu_v

/- ############### Type 2 - inner basis functions - NOT div-free ############### -/

namespace Curlgraduv_graducurlv

/-- `Curlgraduv_graducurlv::Shape`. -/
def Shape (u v : AD2) : Vec4 :=
  ⟨-u.dyx * v.val + v.dy * u.dx,
   u.dxx * v.val - v.dx * u.dx,
   -u.dyy * v.val + v.dy * u.dy,
   u.dxy * v.val - v.dx * u.dy⟩

/-- `Curlgraduv_graducurlv::DivShape`: the closed-form divergence
`-2 * (-uxx*vy + uxy*vx, -uxy*vy + uyy*vx)`. -/
def DivShape (u v : AD2) : Vec2 :=
  ⟨-2 * (-u.dxx * v.dy + u.dxy * v.dx),
   -2 * (-u.dxy * v.dy + u.dyy * v.dx)⟩

end Curlgraduv_graducurlv

/- ############### Type 3 - inner basis functions - div-free ############### -/

namespace T_type4

/-- `T_type4::Shape` (`lam1xy = DDValue(1,0) = dyx`, `lam1yx = DDValue(0,1) = dxy`). -/
def Shape (l1 l2 v : AD2) : Vec4 :=
  ⟨v.val * (-l1.dxy * l2.val - l1.dx * l2.dy + l2.dxy * l1.val + l2.dx * l1.dy) -
     (l1.dx * l2.val - l2.dx * l1.val) * v.dy,
   v.val * (l1.dxx * l2.val + l1.dx * l2.dx - l2.dxx * l1.val - l2.dx * l1.dx) +
     (l1.dx * l2.val - l2.dx * l1.val) * v.dx,
   v.val * (-l1.dyy * l2.val - l1.dy * l2.dy + l2.dyy * l1.val + l2.dy * l1.dy) -
     (l1.dy * l2.val - l2.dy * l1.val) * v.dy,
   v.val * (l1.dyx * l2.val + l1.dy * l2.dx - l2.dyx * l1.val - l2.dy * l1.dx) +
     (l1.dy * l2.val - l2.dy * l1.val) * v.dx⟩

/-- `T_type4::DivShape`: the zero vector, unconditionally. -/
def DivShape (_l1 _l2 _v : AD2) : Vec2 := ⟨0, 0⟩

end T_type4

/- ############### curl-div bubbles (enrichment family) ############### -/

namespace T_sigma_u_grad_v

/-- `T_sigma_u_grad_v::Shape`. -/
def Shape (u v : AD2) : Vec4 :=
  ⟨-u.val * v.dxy - (1/2) * (u.dy * v.dx + u.dx * v.dy),
   u.dx * v.dx + u.val * v.dxx,
   -u.dy * v.dy - u.val * v.dyy,
   u.val * v.dyx + (1/2) * (u.dy * v.dx + u.dx * v.dy)⟩

/-- `T_sigma_u_grad_v::DivShape`. -/
def DivShape (u v : AD2) : Vec2 :=
  ⟨-(1/2) * (-v.dx * u.dxy - u.dy * v.dxx + v.dxy * u.dx + v.dy * u.dxx),
   -(1/2) * (v.dyy * u.dx + v.dy * u.dxy - v.dxy * u.dy - v.dx * u.dyy)⟩

end T_sigma_u_grad_v

/- ############### surface face block (2D trace) ############### -/

namespace T_Dl1_o_Dl2xDl3_v_surf

/-- `T_Dl1_o_Dl2xDl3_v_surf::Shape` (cross product on the surface is a scalar). -/
def Shape (l1 l2 l3 v : AD2) : Vec2 :=
  ⟨v.val * l1.dx * (l2.dx * l3.dy - l2.dy * l3.dx),
   v.val * l1.dy * (l2.dx * l3.dy - l2.dy * l3.dx)⟩

/-- `T_Dl1_o_Dl2xDl3_v_surf::DivShape`: throws
`"not available on surface"` for every input. -/
def DivShape (_l1 _l2 _l3 _v : AD2) : Except String Vec2 :=
  .error "not available on surface"

end T_Dl1_o_Dl2xDl3_v_surf

/-! ### Orthogonal polynomial evaluators (external library, modelled) -/

/-- Modelled from the spec: `ScaledLegendrePolynomial` — the orthogonal
polynomial evaluator library is an external collaborator (not under `src/`),
specified only by contract.  `scaledLegendreAux x t2 n` is the pair
`(S_n, S_(n+1))` of scaled Legendre polynomials `S_j(x,t) = t^j P_j(x/t)`
(with `t2 = t*t`) via `(j+1) S_(j+1) = (2j+1)·x·S_j − j·t²·S_(j-1)`. -/
def scaledLegendreAux (x t2 : AD2) : ℕ → AD2 × AD2
  | 0 => (AD2.c 1, x)
  | n + 1 =>
    let p := scaledLegendreAux x t2 n
    (p.2, AD2.scale (1 / ((n : ℚ) + 2))
      (AD2.scale (2 * (n : ℚ) + 3) (x * p.2) - AD2.scale ((n : ℚ) + 1) (t2 * p.1)))

/-- Modelled from the spec: `ScaledLegendrePolynomial (n, x, t, values)`
fills `values[j] = S_j(x,t)` for `j = 0..n`. -/
def scaledLegendrePolynomial (n : ℕ) (x t : AD2) : List AD2 :=
  (List.range (n + 1)).map fun j => (scaledLegendreAux x (t * t) j).1

/-- Modelled from the spec: `LegendrePolynomial::Eval (n, x, values)` fills
`values[j] = P_j(x)` for `j = 0..n` (Legendre = scaled Legendre at `t = 1`). -/
def legendreEval (n : ℕ) (x : AD2) : List AD2 :=
  scaledLegendrePolynomial n x (AD2.c 1)

/-- Modelled from the spec: `LegendrePolynomial::EvalMult (n, x, c, values)`
fills `values[j] = c·P_j(x)` for `j = 0..n`. -/
def legendreEvalMult (n : ℕ) (x m : AD2) : List AD2 :=
  (legendreEval n x).map fun p => m * p

/-- Modelled from the spec: `IntegratedLegendreMonomialExt` — integrated
Legendre ("monomial extension").  `intLegMonomialExtAux x y2 n` is the pair
`(L_n, L_(n+1))` (with `y2 = y*y`, chain seeded `L_0 = −1`, `L_1 = x`) via
`j·L_j = (2j−3)·x·L_(j-1) − (j−3)·y²·L_(j-2)`; in particular
`L_2 = (x² − y²)/2`. -/
def intLegMonomialExtAux (x y2 : AD2) : ℕ → AD2 × AD2
  | 0 => (AD2.c (-1), x)
  | n + 1 =>
    let p := intLegMonomialExtAux x y2 n
    (p.2, AD2.scale (1 / ((n : ℚ) + 2))
      (AD2.scale (2 * (n : ℚ) + 1) (x * p.2) - AD2.scale ((n : ℚ) - 1) (y2 * p.1)))

/-- Modelled from the spec: `IntegratedLegendreMonomialExt::CalcTrigExt
(n, x, y, values)` fills `values[j-2] = L_j(x,y)` for `j = 2..n`
(`n−1` entries). -/
def calcTrigExt (n : ℕ) (x y : AD2) : List AD2 :=
  (List.range (n - 1)).map fun i => (intLegMonomialExtAux x (y * y) (i + 1)).2

/-! ### Triangle volume element `HCurlDivFE<ET_TRIG>` -/

/-- Modelled from the spec: `ElementTopology::GetEdges(ET_TRIG)` (the
mesh/topology provider is an external collaborator): local vertex pairs of
the three triangle edges. -/
def trigEdges : Fin 3 → Fin 2 → Fin 3 := ![![2, 0], ![1, 2], ![0, 1]]

/-- `HCurlDivFE<ET_TRIG>::ComputeNDof`: returns the pair `(ndof, order)`
computed from the facet orders, the interior order and the `plus` flag. -/
def trigComputeNDof (order_facet : Fin 3 → ℕ) (order_inner : ℕ) (plus : Bool) :
    ℕ × ℕ :=
  let ndof0 := (order_facet 0 + 1) + (order_facet 1 + 1) + (order_facet 2 + 1)
  let order0 := max (max (max 0 (order_facet 0)) (order_facet 1)) (order_facet 2)
  let ninner := order_inner + 1 + 2 * ((order_inner + 1) * order_inner)
  let order1 := max order0 order_inner
  if plus then (ndof0 + (ninner + 2 * order_inner), order1 + 1)
  else (ndof0 + ninner, order1)

/-- One emitted basis-function row: the values of its `Shape()` (flattened
2×2, four entries) and its `DivShape()` (two entries). -/
structure SD2 where
  shape : Vec4
  div : Vec2
deriving DecidableEq, Repr

/-- Edge loop of `HCurlDivFE<ET_TRIG>::T_CalcShape`: for each of the three
edges, canonicalize the endpoints by ascending global vertex number,
evaluate the scaled Legendre sequence up to the shared maximal facet order,
and emit one `Sigma_gradv(le*ls*ha[l])` mode per facet degree `0..order_facet[i]`. -/
def trigEdgeShapes (vnums : Fin 3 → ℕ) (order_facet : Fin 3 → ℕ)
    (ddlami : Fin 3 → AD2) : List SD2 :=
  let maxorder_facet := max (order_facet 0) (max (order_facet 1) (order_facet 2))
  ([0, 1, 2] : List (Fin 3)).flatMap fun i =>
    let es := trigEdges i 0
    let ee := trigEdges i 1
    let es2 := if vnums es > vnums ee then ee else es
    let ee2 := if vnums es > vnums ee then es else ee
    let ls := ddlami es2
    let le := ddlami ee2
    let ha := scaledLegendrePolynomial maxorder_facet (le - ls) (le + ls)
    (List.range (order_facet i + 1)).map fun l =>
      let w := le * ls * ha.getD l (AD2.c 0)
      SD2.mk (Sigma_gradv.Shape w) (Sigma_gradv.DivShape w)

/-- Interior loops of `HCurlDivFE<ET_TRIG>::T_CalcShape` (fixed local
vertices `es = 0, ee = 1, et = 2`): two double loops over
`{(i,j) : i + j ≤ oi − 1}` emitting a `Sigma_gradu_v` and a
`Curlgraduv_graducurlv` mode each, then `oi + 1` `T_type4` modes. -/
def trigInteriorShapes (order_inner : ℕ) (ddlami : Fin 3 → AD2) : List SD2 :=
  let ls := ddlami 0
  let le := ddlami 1
  let lt := ddlami 2
  let oi := order_inner
  let u1 := calcTrigExt (oi + 3) (le - lt) (AD2.c 1 - le - lt)
  let v1 := legendreEvalMult (oi + 1) (AD2.scale 2 ls - AD2.c 1) ls
  let b1 := (List.range oi).flatMap fun i =>
    (List.range (oi - i)).flatMap fun j =>
      [SD2.mk (Sigma_gradu_v.Shape (u1.getD i (AD2.c 0)) (v1.getD j (AD2.c 0)))
          (Sigma_gradu_v.DivShape (u1.getD i (AD2.c 0)) (v1.getD j (AD2.c 0))),
       SD2.mk (Curlgraduv_graducurlv.Shape (u1.getD i (AD2.c 0)) (v1.getD j (AD2.c 0)))
          (Curlgraduv_graducurlv.DivShape (u1.getD i (AD2.c 0)) (v1.getD j (AD2.c 0)))]
  let u2 := calcTrigExt (oi + 3) (le - ls) (AD2.c 1 - le - ls)
  let v2 := legendreEvalMult (oi + 1) (AD2.scale 2 lt - AD2.c 1) lt
  let b2 := (List.range oi).flatMap fun i =>
    (List.range (oi - i)).flatMap fun j =>
      [SD2.mk (Sigma_gradu_v.Shape (u2.getD i (AD2.c 0)) (v2.getD j (AD2.c 0)))
          (Sigma_gradu_v.DivShape (u2.getD i (AD2.c 0)) (v2.getD j (AD2.c 0))),
       SD2.mk (Curlgraduv_graducurlv.Shape (u2.getD i (AD2.c 0)) (v2.getD j (AD2.c 0)))
          (Curlgraduv_graducurlv.DivShape (u2.getD i (AD2.c 0)) (v2.getD j (AD2.c 0)))]
  let v3 := legendreEval oi (AD2.scale 2 lt - AD2.c 1)
  let b3 := (List.range (oi + 1)).map fun i =>
    SD2.mk (T_type4.Shape le ls (v3.getD i (AD2.c 0)))
      (T_type4.DivShape le ls (v3.getD i (AD2.c 0)))
  b1 ++ b2 ++ b3

/-- `HCurlDivFE<ET_TRIG>::T_CalcShape` at an AD point `(hx, hy)` (the
`TIP<2,Tx>` argument): barycentrics `ddlami = {x, y, 1−x−y}`, edge block,
interior block; when `plus` is set the enrichment loop
`for (i = 0; i <= oi−1; ...)` throws `"not working yet!"` on its first
iteration (so only when `oi ≥ 1`). -/
def trigTCalcShapeAD (vnums order_facet : Fin 3 → ℕ) (order_inner : ℕ)
    (plus : Bool) (hx hy : AD2) : Except String (List SD2) :=
  let ddlami : Fin 3 → AD2 := ![hx, hy, AD2.c 1 - hx - hy]
  if plus = true ∧ 0 < order_inner then .error "not working yet!"
  else .ok (trigEdgeShapes vnums order_facet ddlami ++
            trigInteriorShapes order_inner ddlami)

/-- `T_HCurlDivFE::CalcShape` (triangle instance): builds AD coordinates
`AutoDiffDiff(ip(i), i)` and stores `val.Shape()` in row `nr`. -/
def trigCalcShape (vnums order_facet : Fin 3 → ℕ) (order_inner : ℕ)
    (plus : Bool) (x y : ℚ) : Except String (List Vec4) :=
  (trigTCalcShapeAD vnums order_facet order_inner plus
      (AD2.var0 x) (AD2.var1 y)).map (List.map SD2.shape)

/-- `T_HCurlDivFE::CalcDivShape` (triangle instance): builds AD coordinates
and stores `val.DivShape()` in row `nr`. -/
def trigCalcDivShape (vnums order_facet : Fin 3 → ℕ) (order_inner : ℕ)
    (plus : Bool) (x y : ℚ) : Except String (List Vec2) :=
  (trigTCalcShapeAD vnums order_facet order_inner plus
      (AD2.var0 x) (AD2.var1 y)).map (List.map SD2.div)

/-! ### Tetrahedron volume element `HCurlDivFE<ET_TET>` -/

/-- `AutoDiffDiff<3>`: value, gradient `DValue(i)` and Hessian
`DDValue(i,j)` over exact rationals. -/
structure AD3 where
  val : ℚ
  d : Fin 3 → ℚ
  dd : Fin 3 → Fin 3 → ℚ

namespace AD3

/-- Constant (all derivatives zero). -/
def c (q : ℚ) : AD3 := ⟨q, fun _ => 0, fun _ _ => 0⟩

/-- `AutoDiffDiff<3>(v, i)`: coordinate `i` seeded with unit derivative. -/
def var (i : Fin 3) (q : ℚ) : AD3 :=
  ⟨q, fun j => if j = i then 1 else 0, fun _ _ => 0⟩

instance : Add AD3 :=
  ⟨fun a b => ⟨a.val + b.val, fun i => a.d i + b.d i,
    fun i j => a.dd i j + b.dd i j⟩⟩

instance : Sub AD3 :=
  ⟨fun a b => ⟨a.val - b.val, fun i => a.d i - b.d i,
    fun i j => a.dd i j - b.dd i j⟩⟩

instance : Neg AD3 :=
  ⟨fun a => ⟨-a.val, fun i => -a.d i, fun i j => -a.dd i j⟩⟩

/-- Product rule to second order, as in `AutoDiffDiff<D>::operator*`. -/
instance : Mul AD3 :=
  ⟨fun a b => ⟨a.val * b.val,
    fun i => a.d i * b.val + a.val * b.d i,
    fun i j => a.dd i j * b.val + a.d i * b.d j + a.d j * b.d i + a.val * b.dd i j⟩⟩

/-- Scalar multiple (multiplication by a plain number). -/
def scale (q : ℚ) (a : AD3) : AD3 :=
  ⟨q * a.val, fun i => q * a.d i, fun i j => q * a.dd i j⟩

end AD3

/- Face basis functions which are normal-tangential continuous:
   [(grad l1) o-times (grad l2 x grad l3)] * legendre -/

namespace T_Dl1_o_Dl2xDl3_v

/-- The cross product `grad l2 × grad l3` (entries `cross1..cross3`). -/
def cross (l2 l3 : AD3) : Fin 3 → ℚ :=
  ![l2.d 1 * l3.d 2 - l2.d 2 * l3.d 1,
    -(l2.d 0 * l3.d 2 - l2.d 2 * l3.d 0),
    l2.d 0 * l3.d 1 - l2.d 1 * l3.d 0]

/-- `T_Dl1_o_Dl2xDl3_v::Shape`: entry `(i,k)` is `sigmaref(i*3+k)`. -/
def Shape (l1 l2 l3 v : AD3) : Fin 3 → Fin 3 → ℚ :=
  fun i k => v.val * l1.d i * cross l2 l3 k

/-- `T_Dl1_o_Dl2xDl3_v::DivShape`. -/
def DivShape (l1 l2 l3 v : AD3) : Fin 3 → ℚ :=
  fun i => v.d 0 * l1.d i * cross l2 l3 0 + v.d 1 * l1.d i * cross l2 l3 1 +
    v.d 2 * l1.d i * cross l2 l3 2

end T_Dl1_o_Dl2xDl3_v

/- Identity = inner bubble function: I * legendre (3D instance `T_Id_v<3>`) -/

namespace T_Id_v

/-- `T_Id_v<3>::Shape`: `v` on the diagonal. -/
def Shape (v : AD3) : Fin 3 → Fin 3 → ℚ :=
  fun i k => if i = k then v.val else 0

/-- `T_Id_v<3>::DivShape`: the gradient of `v`. -/
def DivShape (v : AD3) : Fin 3 → ℚ := fun i => v.d i

end T_Id_v

/-- One emitted tetrahedron basis-function row: `Shape()` (3×3, entry
`(i,k)` = flattened index `i*3+k`) and `DivShape()` values. -/
structure SD3 where
  shape : Fin 3 → Fin 3 → ℚ
  div : Fin 3 → ℚ

/-- Modelled from the spec: scaled Legendre pair `(S_n, S_(n+1))` on `AD3`
(same recurrence as `scaledLegendreAux`). -/
def scaledLegendreAux3 (x t2 : AD3) : ℕ → AD3 × AD3
  | 0 => (AD3.c 1, x)
  | n + 1 =>
    let p := scaledLegendreAux3 x t2 n
    (p.2, AD3.scale (1 / ((n : ℚ) + 2))
      (AD3.scale (2 * (n : ℚ) + 3) (x * p.2) - AD3.scale ((n : ℚ) + 1) (t2 * p.1)))

/-- Modelled from the spec: the `k`-th scaled Legendre value pushed by
`LegendrePolynomial::EvalScaled1Assign (n, x, t, ...)`. -/
def scaledLegendre3 (k : ℕ) (x t : AD3) : AD3 :=
  (scaledLegendreAux3 x (t * t) k).1

/-- Modelled from the spec: `JacobiPolynomialAlpha` (Jacobi with parameters
`(alpha, 0)`) — pair `(P_n, P_(n+1))` via the standard three-term
recurrence; `P_1 = ((a+2)·x + a)/2`. -/
def jacobiAux3 (a : ℚ) (x : AD3) : ℕ → AD3 × AD3
  | 0 => (AD3.c 1, AD3.scale ((a + 2) / 2) x + AD3.c (a / 2))
  | n + 1 =>
    let p := jacobiAux3 a x n
    let m : ℚ := (n : ℚ) + 1
    (p.2, AD3.scale (1 / (2 * (m + 1) * (m + a + 1) * (2 * m + a)))
      (AD3.scale ((2 * m + a + 1) * (2 * m + a + 2) * (2 * m + a)) (x * p.2) +
       AD3.scale ((2 * m + a + 1) * a * a) p.2 -
       AD3.scale (2 * (m + a) * m * (2 * m + a + 2)) p.1))

/-- Modelled from the spec: plain Jacobi value `P_n^(a,0)(x)`
(`JacobiPolynomialAlpha::EvalMult` entry before the multiplier). -/
def jacobiP3 (n : ℕ) (a : ℚ) (x : AD3) : AD3 := (jacobiAux3 a x n).1

/-- Modelled from the spec: scaled Jacobi pair `(S_n, S_(n+1))`,
`S_n(x,t) = t^n P_n^(a,0)(x/t)` (`JacobiPolynomialAlpha::EvalScaledMult1Assign`). -/
def jacobiScaledAux3 (a : ℚ) (x t : AD3) : ℕ → AD3 × AD3
  | 0 => (AD3.c 1, AD3.scale ((a + 2) / 2) x + AD3.scale (a / 2) t)
  | n + 1 =>
    let p := jacobiScaledAux3 a x t n
    let m : ℚ := (n : ℚ) + 1
    (p.2, AD3.scale (1 / (2 * (m + 1) * (m + a + 1) * (2 * m + a)))
      (AD3.scale ((2 * m + a + 1) * (2 * m + a + 2) * (2 * m + a)) (x * p.2) +
       AD3.scale ((2 * m + a + 1) * a * a) (t * p.2) -
       AD3.scale (2 * (m + a) * m * (2 * m + a + 2)) (t * t * p.1)))

/-- Modelled from the spec: scaled Jacobi value `S_n^(a,0)(x,t)`. -/
def jacobiScaled3 (n : ℕ) (a : ℚ) (x t : AD3) : AD3 :=
  (jacobiScaledAux3 a x t n).1

/-- Modelled from the spec: `DubinerBasis3::Eval (n, x, y, values)` — the
2-variable orthogonal (Dubiner) basis on the triangle, emitted as an outer
scaled Legendre in `(y − (1−x−y), 1−x)` and an inner Jacobi of parameter
`1 + 2i` in `2x − 1`; `(n+1)(n+2)/2` entries. -/
def dubinerBasis3 (n : ℕ) (x y : AD3) : List AD3 :=
  (List.range (n + 1)).flatMap fun i =>
    let vali := scaledLegendre3 i (y - (AD3.c 1 - x - y)) (AD3.c 1 - x)
    (List.range (n - i + 1)).map fun j =>
      jacobiP3 j (1 + 2 * (i : ℚ)) (AD3.scale 2 x - AD3.c 1) * vali

/-- Modelled from the spec: `ElementTopology::GetFaces(ET_TET)` (topology
provider external to `src/`): local vertex triples of the four faces. -/
def tetFaces : Fin 4 → Fin 3 → Fin 4 :=
  ![![3, 1, 2], ![3, 2, 0], ![3, 0, 1], ![0, 2, 1]]

/-- `HCurlDivFE<ET_TET>::ComputeNDof`: returns `(ndof, order)`.  The
interior count is written in the source in `double` arithmetic
(`.../6.0 + 8.0/6.0 * ...`) and truncated to `int`; both addends are exact
integers, embedded here as exact natural division. -/
def tetComputeNDof (order_facet : Fin 4 → ℕ) (order_inner : ℕ) (_plus : Bool) :
    ℕ × ℕ :=
  let ndof0 := (order_facet 0 + 1) * (order_facet 0 + 2) +
    (order_facet 1 + 1) * (order_facet 1 + 2) +
    (order_facet 2 + 1) * (order_facet 2 + 2) +
    (order_facet 3 + 1) * (order_facet 3 + 2)
  let order0 := max (max (max (max 0 (order_facet 0)) (order_facet 1))
    (order_facet 2)) (order_facet 3)
  let ninner := (order_inner + 1) * (order_inner + 2) * (order_inner + 3) / 6 +
    8 * ((order_inner + 2) * (order_inner + 1) * order_inner) / 6
  (ndof0 + ninner, max order0 order_inner)

/-- `maxorder_facet` as computed by `HCurlDivFE<ET_TET>::T_CalcShape`
(lines 631–632): the maximum over the orders of faces 0, 1 and 2 only —
`order_facet[3]` is not included. -/
def tetMaxorderFacet (order_facet : Fin 4 → ℕ) : ℕ :=
  max (order_facet 0) (max (order_facet 1) (order_facet 2))

/-- Number of face-basis entries actually evaluated into `ha` by
`DubinerBasis3::Eval (maxorder_facet, ls, le, ha)`. -/
def tetFaceBasisCount (order_facet : Fin 4 → ℕ) : ℕ :=
  (tetMaxorderFacet order_facet + 1) * (tetMaxorderFacet order_facet + 2) / 2

/-- Number of entries `ha[l]` read by the emission loop of face `fa`
(`l < (order_facet[fa]+1)*(order_facet[fa]+2)/2`). -/
def tetFaceReadCount (order_facet : Fin 4 → ℕ) (fa : Fin 4) : ℕ :=
  (order_facet fa + 1) * (order_facet fa + 2) / 2

/-- Face loop of `HCurlDivFE<ET_TET>::T_CalcShape`: canonicalize the three
face vertices by ascending global vertex number (three compare-and-swaps),
evaluate the Dubiner basis up to `maxorder_facet`, and emit two
`T_Dl1_o_Dl2xDl3_v` modes per face-basis index.  A read `ha[l]` beyond the
evaluated entries (possible for face 3, see `tetMaxorderFacet`) is modelled
as a default-valued read. -/
def tetFaceShapes (vnums order_facet : Fin 4 → ℕ) (ddlami : Fin 4 → AD3) :
    List SD3 :=
  ([0, 1, 2, 3] : List (Fin 4)).flatMap fun fa =>
    let f0 := tetFaces fa 0
    let f1 := tetFaces fa 1
    let f2 := tetFaces fa 2
    let (g0, g1) := if vnums f0 > vnums f1 then (f1, f0) else (f0, f1)
    let (h1, h2) := if vnums g1 > vnums f2 then (f2, g1) else (g1, f2)
    let (k0, k1) := if vnums g0 > vnums h1 then (h1, g0) else (g0, h1)
    let ls := ddlami k0
    let le := ddlami k1
    let lt := ddlami h2
    let ha := dubinerBasis3 (tetMaxorderFacet order_facet) ls le
    (List.range (tetFaceReadCount order_facet fa)).flatMap fun l =>
      [SD3.mk (T_Dl1_o_Dl2xDl3_v.Shape le ls lt (ha.getD l (AD3.c 0)))
          (T_Dl1_o_Dl2xDl3_v.DivShape le ls lt (ha.getD l (AD3.c 0))),
       SD3.mk (T_Dl1_o_Dl2xDl3_v.Shape ls lt le (ha.getD l (AD3.c 0)))
          (T_Dl1_o_Dl2xDl3_v.DivShape ls lt le (ha.getD l (AD3.c 0)))]

/-- Type-1 interior loop of `HCurlDivFE<ET_TET>::T_CalcShape`: the triple
nested orthogonal-polynomial recursion (outer scaled Legendre over
`(lt−lo, lt+lo)`, middle scaled Jacobi of parameter `1+2k`, inner Jacobi of
parameter `2k+2+2j`), one `T_Id_v<3>` mode per index triple with total
degree ≤ `order_inner`. -/
def tetType1Shapes (oi : ℕ) (ls le lt lo : AD3) : List SD3 :=
  (List.range (oi + 1)).flatMap fun k =>
    let polz := scaledLegendre3 k (lt - lo) (lt + lo)
    (List.range (oi - k + 1)).flatMap fun j =>
      let polsy := jacobiScaled3 j (1 + 2 * (k : ℚ)) (le - lt - lo) (AD3.c 1 - ls) * polz
      (List.range (oi - k - j + 1)).map fun l =>
        let val := jacobiP3 l (2 * (k : ℚ) + 2 + 2 * (j : ℚ)) (AD3.scale 2 ls - AD3.c 1) * polsy
        SD3.mk (T_Id_v.Shape val) (T_Id_v.DivShape val)

/-- Type-2 interior loop of `HCurlDivFE<ET_TET>::T_CalcShape`: the same
recursion at total degree ≤ `order_inner − 1`, each index triple emitting 8
`T_Dl1_o_Dl2xDl3_v` modes (4 opposite-vertex rotations × 2 orientations),
scaled by the complementary barycentric coordinate. -/
def tetType2Shapes (oi : ℕ) (ls le lt lo : AD3) : List SD3 :=
  (List.range oi).flatMap fun k =>
    let polz := scaledLegendre3 k (lt - lo) (lt + lo)
    (List.range (oi - k)).flatMap fun j =>
      let polsy := jacobiScaled3 j (1 + 2 * (k : ℚ)) (le - lt - lo) (AD3.c 1 - ls) * polz
      (List.range (oi - k - j)).flatMap fun l =>
        let val := jacobiP3 l (2 * (k : ℚ) + 2 + 2 * (j : ℚ)) (AD3.scale 2 ls - AD3.c 1) * polsy
        [SD3.mk (T_Dl1_o_Dl2xDl3_v.Shape le ls lt (lo * val))
            (T_Dl1_o_Dl2xDl3_v.DivShape le ls lt (lo * val)),
         SD3.mk (T_Dl1_o_Dl2xDl3_v.Shape ls lt le (lo * val))
            (T_Dl1_o_Dl2xDl3_v.DivShape ls lt le (lo * val)),
         SD3.mk (T_Dl1_o_Dl2xDl3_v.Shape le ls lo (lt * val))
            (T_Dl1_o_Dl2xDl3_v.DivShape le ls lo (lt * val)),
         SD3.mk (T_Dl1_o_Dl2xDl3_v.Shape ls lo le (lt * val))
            (T_Dl1_o_Dl2xDl3_v.DivShape ls lo le (lt * val)),
         SD3.mk (T_Dl1_o_Dl2xDl3_v.Shape le lo lt (ls * val))
            (T_Dl1_o_Dl2xDl3_v.DivShape le lo lt (ls * val)),
         SD3.mk (T_Dl1_o_Dl2xDl3_v.Shape lo lt le (ls * val))
            (T_Dl1_o_Dl2xDl3_v.DivShape lo lt le (ls * val)),
         SD3.mk (T_Dl1_o_Dl2xDl3_v.Shape lo ls lt (le * val))
            (T_Dl1_o_Dl2xDl3_v.DivShape lo ls lt (le * val)),
         SD3.mk (T_Dl1_o_Dl2xDl3_v.Shape lt ls lo (le * val))
            (T_Dl1_o_Dl2xDl3_v.DivShape lt ls lo (le * val))]

/-- `HCurlDivFE<ET_TET>::T_CalcShape` at an AD point: barycentrics
`ddlami = {x, y, z, 1−x−y−z}`, face loop, then the two interior families
with fixed local vertices `(0,1,2,3)`.  No code path throws and the `plus`
flag is never consulted (its `ComputeNDof` branch is commented out). -/
def tetTCalcShape (vnums order_facet : Fin 4 → ℕ) (order_inner : ℕ)
    (hx hy hz : AD3) : List SD3 :=
  let ddlami : Fin 4 → AD3 := ![hx, hy, hz, AD3.c 1 - hx - hy - hz]
  tetFaceShapes vnums order_facet ddlami ++
    tetType1Shapes order_inner (ddlami 0) (ddlami 1) (ddlami 2) (ddlami 3) ++
    tetType2Shapes order_inner (ddlami 0) (ddlami 1) (ddlami 2) (ddlami 3)

/-! ### Mapping / pushforward layer -/

/-- `MappedIntegrationPoint<2,2>` data consumed by the mapping layer: the
mapped point values, the Jacobian, the second derivatives (`CalcHesse`) of
the map, and whether the transformation `IsCurvedElement()`. -/
structure MIP2 where
  point : Fin 2 → ℚ
  jac : Fin 2 → Fin 2 → ℚ
  hesse : Fin 2 → Fin 2 → Fin 2 → ℚ
  curved : Bool

/-- `Vec<DIM, AutoDiff<DIM>> adp = mip; addp[i] = adp[i].Value();
addp[i].LoadGradient(&adp[i].DValue(0))`: AD coordinate `i` carries the
mapped value and the Jacobian row; its second derivatives stay zero. -/
def MIP2.ad (mip : MIP2) (i : Fin 2) : AD2 :=
  ⟨mip.point i, mip.jac i 0, mip.jac i 1, 0, 0, 0, 0⟩

/-- `T_HCurlDivFE::CalcMappedShape` (triangle instance): evaluates
`T_CalcShape` at the AD point built from the mapped value and Jacobian and
writes each `val.Shape()` into its row (`VecToMat`). -/
def trigCalcMappedShape (vnums order_facet : Fin 3 → ℕ) (order_inner : ℕ)
    (plus : Bool) (mip : MIP2) : Except String (List Vec4) :=
  (trigTCalcShapeAD vnums order_facet order_inner plus
      (mip.ad 0) (mip.ad 1)).map (List.map SD2.shape)

/-- `T_HCurlDivFE::CalcMappedDivShape` (triangle instance): for a non-curved
element writes each `val.DivShape()` into its row, with no correction term;
for a curved element throws `"not implemented yet!"`. -/
def trigCalcMappedDivShape (vnums order_facet : Fin 3 → ℕ) (order_inner : ℕ)
    (plus : Bool) (mip : MIP2) : Except String (List Vec2) :=
  if mip.curved = false then
    (trigTCalcShapeAD vnums order_facet order_inner plus
        (mip.ad 0) (mip.ad 1)).map (List.map SD2.div)
  else .error "not implemented yet!"

/-- A concrete affine (non-curved) mapped integration point. -/
def mipAffineTest : MIP2 :=
  ⟨![1, 2], ![![2, 1], ![0, 3]], fun _ _ _ => 0, false⟩

/-- A concrete curved mapped integration point agreeing with
`mipAffineTest` in value and Jacobian but not in curvature data. -/
def mipCurvedTest : MIP2 :=
  ⟨![1, 2], ![![2, 1], ![0, 3]], fun _ _ _ => 5, true⟩

/-! ### Polynomial fields and the exact divergence of the 2D blocks -/

open MvPolynomial

/-- Bivariate polynomial fields over ℚ — the twice-differentiable inputs of
the analytic-divergence cross-check. -/
abbrev P2 := MvPolynomial (Fin 2) ℚ

/-- Formal partial derivative in `x`. -/
noncomputable def pdx (p : P2) : P2 := pderiv 0 p

/-- Formal partial derivative in `y`. -/
noncomputable def pdy (p : P2) : P2 := pderiv 1 p

/-- The second-order jet of the polynomial field `p` at point `q`: exactly
the data an `AutoDiffDiff<2>` argument built from `p` carries
(`DDValue(0,1)` and `DDValue(1,0)` both hold the symmetric mixed partial). -/
noncomputable def ad2OfPoly (p : P2) (q : Fin 2 → ℚ) : AD2 :=
  ⟨eval q p, eval q (pdx p), eval q (pdy p),
   eval q (pdx (pdx p)), eval q (pdx (pdy p)),
   eval q (pdx (pdy p)), eval q (pdy (pdy p))⟩

/-- Row-wise divergence of a flattened 2×2 polynomial tensor field: row `r`
is `∂x S(2r) + ∂y S(2r+1)`. -/
noncomputable def rowDiv (S : Fin 4 → P2) : Fin 2 → P2
  | 0 => pdx (S 0) + pdy (S 1)
  | 1 => pdx (S 2) + pdy (S 3)

/-- The field of `Sigma_gradv::Shape` values of the polynomial field `v`. -/
noncomputable def sigmaGradvField (v : P2) : Fin 4 → P2
  | 0 => -(pdx (pdy v))
  | 1 => pdx (pdx v)
  | 2 => -(pdy (pdy v))
  | 3 => pdx (pdy v)

/-- The field of `Sigma_gradu_v::Shape` values of the polynomial fields
`u, v`. -/
noncomputable def sigmaGraduVField (u v : P2) : Fin 4 → P2
  | 0 => -(pdx (pdy u)) * v - pdy v * pdx u
  | 1 => pdx (pdx u) * v + pdx v * pdx u
  | 2 => -(pdy (pdy u)) * v - pdy v * pdy u
  | 3 => pdx (pdy u) * v + pdx v * pdy u

/-- The field of `Curlgraduv_graducurlv::Shape` values of `u, v`. -/
noncomputable def curlField (u v : P2) : Fin 4 → P2
  | 0 => -(pdx (pdy u)) * v + pdy v * pdx u
  | 1 => pdx (pdx u) * v - pdx v * pdx u
  | 2 => -(pdy (pdy u)) * v + pdy v * pdy u
  | 3 => pdx (pdy u) * v - pdx v * pdy u

/-- The field of `T_type4::Shape` values of `l1, l2, v`. -/
noncomputable def type4Field (l1 l2 v : P2) : Fin 4 → P2
  | 0 => v * (-(pdx (pdy l1)) * l2 - pdx l1 * pdy l2 + pdx (pdy l2) * l1 + pdx l2 * pdy l1) -
      (pdx l1 * l2 - pdx l2 * l1) * pdy v
  | 1 => v * (pdx (pdx l1) * l2 + pdx l1 * pdx l2 - pdx (pdx l2) * l1 - pdx l2 * pdx l1) +
      (pdx l1 * l2 - pdx l2 * l1) * pdx v
  | 2 => v * (-(pdy (pdy l1)) * l2 - pdy l1 * pdy l2 + pdy (pdy l2) * l1 + pdy l2 * pdy l1) -
      (pdy l1 * l2 - pdy l2 * l1) * pdy v
  | 3 => v * (pdx (pdy l1) * l2 + pdy l1 * pdx l2 - pdx (pdy l2) * l1 - pdy l2 * pdx l1) +
      (pdy l1 * l2 - pdy l2 * l1) * pdx v

/-- The closed-form divergence of the `Curlgraduv_graducurlv` family, as a
polynomial field: `-2·(-uxx·vy + uxy·vx, -uxy·vy + uyy·vx)`. -/
noncomputable def curlDivClosedField (u v : P2) : Fin 2 → P2
  | 0 => -2 * (-(pdx (pdx u)) * pdy v + pdx (pdy u) * pdx v)
  | 1 => -2 * (-(pdx (pdy u)) * pdy v + pdy (pdy u) * pdx v)

/-- `T_HCurlDivFE<ET>::ComputeNDof` (generic, non-specialized base):
prints `"Error, ..."` to `cout` and returns normally; `ndof` is left
untouched.  Modelled as a `. ok` result carrying the unchanged `ndof`
together with the list of messages written to standard output. -/
def T_HCurlDivFE_base_ComputeNDof (ndof : ℕ) : Except String (ℕ × List String) :=
  .ok (ndof, ["Error, T_HCurlDivFE<ET>:: ComputeNDof not available, only for ET == TRIG"])

/-- `T_HCurlDivSurfaceFE<ET>::ComputeNDof` (generic surface base):
prints an error to `cout` and returns normally, `ndof` untouched. -/
def T_HCurlDivSurfaceFE_base_ComputeNDof (ndof : ℕ) : Except String (ℕ × List String) :=
  .ok (ndof, ["Error, T_HCurlDivSurfaceFE<ET>:: ComputeNDof not available for base class"])

end HCurlDiv

namespace HCurlDiv

open MvPolynomial

/-! ### Unfolding lemmas for the AD operations (used to evaluate concretely) -/

@[simp] lemma AD2.add_def (a b : AD2) :
    a + b = ⟨a.val + b.val, a.dx + b.dx, a.dy + b.dy,
      a.dxx + b.dxx, a.dxy + b.dxy, a.dyx + b.dyx, a.dyy + b.dyy⟩ := rfl

@[simp] lemma AD2.sub_def (a b : AD2) :
    a - b = ⟨a.val - b.val, a.dx - b.dx, a.dy - b.dy,
      a.dxx - b.dxx, a.dxy - b.dxy, a.dyx - b.dyx, a.dyy - b.dyy⟩ := rfl

@[simp] lemma AD2.neg_def (a : AD2) :
    -a = ⟨-a.val, -a.dx, -a.dy, -a.dxx, -a.dxy, -a.dyx, -a.dyy⟩ := rfl

@[simp] lemma AD2.mul_def (a b : AD2) :
    a * b = ⟨a.val * b.val,
      a.dx * b.val + a.val * b.dx,
      a.dy * b.val + a.val * b.dy,
      a.dxx * b.val + a.dx * b.dx + a.dx * b.dx + a.val * b.dxx,
      a.dxy * b.val + a.dx * b.dy + a.dy * b.dx + a.val * b.dxy,
      a.dyx * b.val + a.dy * b.dx + a.dx * b.dy + a.val * b.dyx,
      a.dyy * b.val + a.dy * b.dy + a.dy * b.dy + a.val * b.dyy⟩ := rfl

/-! ### Helper lemmas on emission counts -/

lemma list_sum_map_two {α : Type} (l : List α) :
    (l.map fun _ => (2 : ℕ)).sum = 2 * l.length := by
  induction l with
  | nil => simp
  | cons a t ih => simp [ih]; omega

lemma sum_range_two_mul_sub (n : ℕ) :
    ((List.range n).map fun i => 2 * (n - i)).sum = n * (n + 1) := by
  show (∑ i in Finset.range n, 2 * (n - i)) = n * (n + 1)
  induction n with
  | zero => simp
  | succ m ih =>
    rw [Finset.sum_range_succ]
    have h : ∑ i in Finset.range m, 2 * (m + 1 - i)
        = ∑ i in Finset.range m, (2 * (m - i) + 2) := by
      refine Finset.sum_congr rfl fun j hj => ?_
      have hj2 := Finset.mem_range.mp hj
      omega
    rw [h, Finset.sum_add_distrib, ih]
    simp [Finset.sum_const, Finset.card_range]
    ring

lemma trigPairBlock_length (n : ℕ) (f g : ℕ → ℕ → SD2) :
    ((List.range n).flatMap fun i =>
      (List.range (n - i)).flatMap fun j => [f i j, g i j]).length = n * (n + 1) := by
  rw [← sum_range_two_mul_sub n]
  simp only [List.length_flatMap, Function.comp_def, List.length_cons,
    List.length_nil, list_sum_map_two, List.length_range]
  all_goals exact congrArg List.sum (List.map_congr_left fun i _ => by ring)

lemma trigEdgeShapes_length (vnums order_facet : Fin 3 → ℕ) (ddlami : Fin 3 → AD2) :
    (trigEdgeShapes vnums order_facet ddlami).length =
      (order_facet 0 + 1) + (order_facet 1 + 1) + (order_facet 2 + 1) := by
  simp [trigEdgeShapes]
  all_goals omega

lemma trigInteriorShapes_length (oi : ℕ) (ddlami : Fin 3 → AD2) :
    (trigInteriorShapes oi ddlami).length = oi + 1 + 2 * ((oi + 1) * oi) := by
  simp only [trigInteriorShapes]
  rw [List.length_append, List.length_append, trigPairBlock_length,
    trigPairBlock_length, List.length_map, List.length_range]
  ring

/-! ### Claim theorems -/

/-- C1 counterexample: for the triangle with `order_facet = [1,1,1]`,
`order_inner = 1`, `plus = false`, `ComputeNDof` does NOT report
`NDOF = 10`: the interior contributes `(1+1) + 2·(1+1)·1 = 6` degrees of
freedom, not 4, so `NDOF = 12`. -/
theorem trig_scenario_ndof_not_ten :
    (trigComputeNDof ![1, 1, 1] 1 false).1 ≠ 10 := by
  decide

set_option maxHeartbeats 4000000 in
/-- C1 amended: for the triangle with `order_facet = [1,1,1]`,
`order_inner = 1`, `plus = false`, `ComputeNDof` reports `NDOF = 12`
(reported order 1); evaluating `CalcShape`/`CalcDivShape` at the centroid
`x = y = 1/3` produces exactly 12 basis-function rows of 4 shape values and
12 rows of 2 divergence values, of which the 6 edge-derived rows have
divergence exactly `(0,0)` and the 6 interior rows split 4 divergence-free /
2 with nonzero divergence (rows 7 and 9, the `Curlgraduv_graducurlv` modes). -/
theorem trig_scenario_centroid :
    trigComputeNDof ![1, 1, 1] 1 false = (12, 1) ∧
    (trigCalcShape ![0, 1, 2] ![1, 1, 1] 1 false (1/3) (1/3)).map List.length
      = .ok 12 ∧
    trigCalcDivShape ![0, 1, 2] ![1, 1, 1] 1 false (1/3) (1/3)
      = .ok [⟨0, 0⟩, ⟨0, 0⟩, ⟨0, 0⟩, ⟨0, 0⟩, ⟨0, 0⟩, ⟨0, 0⟩,
             ⟨0, 0⟩, ⟨-4, -8⟩, ⟨0, 0⟩, ⟨-4, 4⟩, ⟨0, 0⟩, ⟨0, 0⟩] := by
  refine ⟨by norm_num [trigComputeNDof], ?_, ?_⟩ <;>
  norm_num [trigCalcShape, trigCalcDivShape, trigTCalcShapeAD, trigEdgeShapes,
    trigInteriorShapes, trigEdges, scaledLegendrePolynomial, scaledLegendreAux,
    legendreEval, legendreEvalMult, calcTrigExt, intLegMonomialExtAux,
    Sigma_gradv.Shape, Sigma_gradv.DivShape, Sigma_gradu_v.Shape,
    Sigma_gradu_v.DivShape, Curlgraduv_graducurlv.Shape,
    Curlgraduv_graducurlv.DivShape, T_type4.Shape, T_type4.DivShape,
    AD2.c, AD2.var0, AD2.var1, AD2.scale, List.range_succ, Except.map]

/-- C2: for every triangle order specification with facet and interior
orders in `0..6` and `plus = false`, `ComputeNDof` sets
`ndof = Σ (order_facet[f]+1) + (order_inner+1) + 2·(order_inner+1)·order_inner`,
reports the order as the maximum of the facet orders and the interior order,
and `T_CalcShape` (hence `CalcShape` and `CalcDivShape`) emits exactly
`ndof` rows, indices `0..ndof−1` written once each in order. -/
theorem trig_ndof_row_consistency (vnums order_facet : Fin 3 → ℕ)
    (order_inner : ℕ) (hx hy : AD2)
    (h0 : order_facet 0 ≤ 6) (h1 : order_facet 1 ≤ 6) (h2 : order_facet 2 ≤ 6)
    (hi : order_inner ≤ 6) :
    (trigComputeNDof order_facet order_inner false).1 =
      ((order_facet 0 + 1) + (order_facet 1 + 1) + (order_facet 2 + 1)) +
      ((order_inner + 1) + 2 * ((order_inner + 1) * order_inner)) ∧
    (trigComputeNDof order_facet order_inner false).2 =
      max (max (max (order_facet 0) (order_facet 1)) (order_facet 2)) order_inner ∧
    ∃ rows : List SD2,
      trigTCalcShapeAD vnums order_facet order_inner false hx hy = .ok rows ∧
      rows.length = (trigComputeNDof order_facet order_inner false).1 := by
  refine ⟨?_, ?_, ?_⟩
  · simp [trigComputeNDof]
    try ring
  · simp [trigComputeNDof, Nat.zero_max]
  · refine ⟨trigEdgeShapes vnums order_facet ![hx, hy, AD2.c 1 - hx - hy] ++
      trigInteriorShapes order_inner ![hx, hy, AD2.c 1 - hx - hy],
      by simp [trigTCalcShapeAD], ?_⟩
    rw [List.length_append, trigEdgeShapes_length, trigInteriorShapes_length]
    simp [trigComputeNDof]
    try ring

/-- C2 witness: the consistency theorem instantiated at
`order_facet = [2,0,1]`, `order_inner = 3`, vertex numbers `[7,3,5]`,
point `(1/5, 1/7)`. -/
theorem trig_ndof_row_consistency_witness :
    (2 ≤ 6 ∧ 0 ≤ 6 ∧ 1 ≤ 6 ∧ 3 ≤ 6) ∧
    ((trigComputeNDof ![2, 0, 1] 3 false).1 =
      ((2 + 1) + (0 + 1) + (1 + 1)) + ((3 + 1) + 2 * ((3 + 1) * 3)) ∧
    (trigComputeNDof ![2, 0, 1] 3 false).2 = max (max (max 2 0) 1) 3 ∧
    ∃ rows : List SD2,
      trigTCalcShapeAD ![7, 3, 5] ![2, 0, 1] 3 false
        (AD2.var0 (1/5)) (AD2.var1 (1/7)) = .ok rows ∧
      rows.length = (trigComputeNDof ![2, 0, 1] 3 false).1) :=
  ⟨by decide,
   trig_ndof_row_consistency ![7, 3, 5] ![2, 0, 1] 3
     (AD2.var0 (1/5)) (AD2.var1 (1/7)) (by decide) (by decide) (by decide) (by decide)⟩

/-- C9 counterexample: with the enrichment flag `plus = true` and interior
order `0`, the triangle `T_CalcShape` does NOT raise: the enrichment loop
`for (i = 0; i <= order_inner − 1; ...)` has an empty range, so the throw
inside it is never reached and the evaluation returns rows normally. -/
theorem trig_plus_order0_returns_rows :
    (trigTCalcShapeAD ![0, 1, 2] ![0, 0, 0] 0 true
      (AD2.var0 (1/3)) (AD2.var1 (1/3))).isOk = true := by
  decide

/-- C9 amended: for the triangle with `plus = true` and every interior order
`order_inner ≥ 1`, every shape evaluation (`T_CalcShape`, hence
`CalcShape`/`CalcDivShape`) raises the `"not working yet!"` error instead of
returning numeric data for the enrichment bubbles; at `order_inner = 0` the
enrichment loop is empty and evaluation returns normally. -/
theorem trig_plus_throws (vnums order_facet : Fin 3 → ℕ) (order_inner : ℕ)
    (hx hy : AD2) (h : 1 ≤ order_inner) :
    trigTCalcShapeAD vnums order_facet order_inner true hx hy
      = .error "not working yet!" := by
  simp [trigTCalcShapeAD, h]
  omega

/-- C9 witness: the amended theorem at `order_inner = 1`. -/
theorem trig_plus_throws_witness :
    1 ≤ 1 ∧
    trigTCalcShapeAD ![0, 1, 2] ![1, 1, 1] 1 true
      (AD2.var0 (1/3)) (AD2.var1 (1/3)) = .error "not working yet!" :=
  ⟨by decide,
   trig_plus_throws ![0, 1, 2] ![1, 1, 1] 1
     (AD2.var0 (1/3)) (AD2.var1 (1/3)) (by decide)⟩

lemma two_mul_read (p : ℕ) : 2 * ((p + 1) * (p + 2) / 2) = (p + 1) * (p + 2) := by
  have h2 : 2 ∣ (p + 1) * (p + 2) := (Nat.even_mul_succ_self (p + 1)).two_dvd
  exact Nat.mul_div_cancel' h2

lemma tetFaceShapes_length (vnums order_facet : Fin 4 → ℕ) (ddlami : Fin 4 → AD3) :
    (tetFaceShapes vnums order_facet ddlami).length =
      (order_facet 0 + 1) * (order_facet 0 + 2) +
      (order_facet 1 + 1) * (order_facet 1 + 2) +
      (order_facet 2 + 1) * (order_facet 2 + 2) +
      (order_facet 3 + 1) * (order_facet 3 + 2) := by
  simp [tetFaceShapes, tetFaceReadCount, List.length_flatMap, Function.comp_def,
    list_sum_map_two]
  have e0 := two_mul_read (order_facet 0)
  have e1 := two_mul_read (order_facet 1)
  have e2 := two_mul_read (order_facet 2)
  have e3 := two_mul_read (order_facet 3)
  omega

lemma tetType1Shapes_length (oi : ℕ) (hi : oi ≤ 6) (ls le lt lo : AD3) :
    (tetType1Shapes oi ls le lt lo).length =
      (oi + 1) * (oi + 2) * (oi + 3) / 6 := by
  simp only [tetType1Shapes, List.length_flatMap, Function.comp_def,
    List.length_map, List.length_range]
  interval_cases oi <;> decide

lemma tetType2Shapes_length (oi : ℕ) (hi : oi ≤ 6) (ls le lt lo : AD3) :
    (tetType2Shapes oi ls le lt lo).length =
      8 * ((oi + 2) * (oi + 1) * oi) / 6 := by
  simp only [tetType2Shapes, List.length_flatMap, Function.comp_def,
    List.length_cons, List.length_nil, List.length_map, List.length_range]
  interval_cases oi <;> decide

/-- C3: for every tetrahedron order specification with facet and interior
orders in `0..6`, `ComputeNDof` sets
`ndof = Σ (order_facet[f]+1)(order_facet[f]+2) + C(order_inner+3,3) +
(8/6)(order_inner+2)(order_inner+1)order_inner`, the result is independent
of the enrichment flag `plus` (the enrichment branch is commented out — a
no-op, not an error), and the shape enumeration emits exactly `ndof` rows. -/
theorem tet_ndof_row_consistency (vnums order_facet : Fin 4 → ℕ)
    (order_inner : ℕ) (plus : Bool) (hx hy hz : AD3)
    (h0 : order_facet 0 ≤ 6) (h1 : order_facet 1 ≤ 6) (h2 : order_facet 2 ≤ 6)
    (h3 : order_facet 3 ≤ 6) (hi : order_inner ≤ 6) :
    (tetComputeNDof order_facet order_inner plus).1 =
      ((order_facet 0 + 1) * (order_facet 0 + 2) +
       (order_facet 1 + 1) * (order_facet 1 + 2) +
       (order_facet 2 + 1) * (order_facet 2 + 2) +
       (order_facet 3 + 1) * (order_facet 3 + 2)) +
      ((order_inner + 1) * (order_inner + 2) * (order_inner + 3) / 6 +
       8 * ((order_inner + 2) * (order_inner + 1) * order_inner) / 6) ∧
    tetComputeNDof order_facet order_inner plus
      = tetComputeNDof order_facet order_inner false ∧
    (tetTCalcShape vnums order_facet order_inner hx hy hz).length =
      (tetComputeNDof order_facet order_inner plus).1 := by
  refine ⟨rfl, rfl, ?_⟩
  simp only [tetTCalcShape]
  rw [List.length_append, List.length_append, tetFaceShapes_length,
    tetType1Shapes_length _ hi, tetType2Shapes_length _ hi]
  simp only [tetComputeNDof]
  omega

/-- C3 witness: the consistency theorem at `order_facet = [1,2,3,2]`,
`order_inner = 3`. -/
theorem tet_ndof_row_consistency_witness :
    (1 ≤ 6 ∧ 2 ≤ 6 ∧ 3 ≤ 6 ∧ 2 ≤ 6 ∧ 3 ≤ 6) ∧
    ((tetComputeNDof ![1, 2, 3, 2] 3 true).1 =
      ((1 + 1) * (1 + 2) + (2 + 1) * (2 + 2) + (3 + 1) * (3 + 2) +
        (2 + 1) * (2 + 2)) +
      ((3 + 1) * (3 + 2) * (3 + 3) / 6 + 8 * ((3 + 2) * (3 + 1) * 3) / 6) ∧
    tetComputeNDof ![1, 2, 3, 2] 3 true = tetComputeNDof ![1, 2, 3, 2] 3 false ∧
    (tetTCalcShape ![0, 1, 2, 3] ![1, 2, 3, 2] 3
        (AD3.var 0 (1/4)) (AD3.var 1 (1/4)) (AD3.var 2 (1/4))).length =
      (tetComputeNDof ![1, 2, 3, 2] 3 true).1) :=
  ⟨by decide,
   tet_ndof_row_consistency ![0, 1, 2, 3] ![1, 2, 3, 2] 3 true
     (AD3.var 0 (1/4)) (AD3.var 1 (1/4)) (AD3.var 2 (1/4))
     (by decide) (by decide) (by decide) (by decide) (by decide)⟩

/-- C8: in the tetrahedron evaluator the Dubiner face basis is evaluated
only up to `maxorder_facet = max(order_facet[0..2])` — `order_facet[3]` is
omitted — so at `order_facet = [0,0,0,1]` face 3 reads 3 entries
(`l < (1+1)(1+2)/2 = 3`) of `ha` while only 1 entry was evaluated: the reads
do not all lie within the evaluated range, contradicting the claim. -/
theorem tet_face3_dubiner_overread :
    tetFaceBasisCount ![0, 0, 0, 1] = 1 ∧
    tetFaceReadCount ![0, 0, 0, 1] 3 = 3 ∧
    (dubinerBasis3 (tetMaxorderFacet ![0, 0, 0, 1]) (AD3.c 0) (AD3.c 0)).length = 1 ∧
    ¬ tetFaceReadCount ![0, 0, 0, 1] 3 ≤ tetFaceBasisCount ![0, 0, 0, 1] := by
  decide

/-- C5: `CalcMappedDivShape` on the volume element raises the
`"not implemented yet!"` error if and only if the element transformation is
curved; for every non-curved (affine) transformation it raises nothing and
fills row `nr` with exactly the reference divergence `DivShape()` of basis
function `nr` — the `SD2.div` component of the `T_CalcShape` enumeration —
with no correction term and no approximation. -/
theorem trig_mapped_divshape_curved_iff (vnums order_facet : Fin 3 → ℕ)
    (order_inner : ℕ) (plus : Bool) (mip : MIP2) :
    (trigCalcMappedDivShape vnums order_facet order_inner plus mip
        = .error "not implemented yet!" ↔ mip.curved = true) ∧
    (mip.curved = false →
      trigCalcMappedDivShape vnums order_facet order_inner plus mip
        = (trigTCalcShapeAD vnums order_facet order_inner plus
            (mip.ad 0) (mip.ad 1)).map (List.map SD2.div)) := by
  constructor
  · cases hc : mip.curved with
    | true => simp [trigCalcMappedDivShape, hc]
    | false =>
      simp only [trigCalcMappedDivShape, hc, if_pos rfl]
      constructor
      · intro h
        rcases he : trigTCalcShapeAD vnums order_facet order_inner plus
            (mip.ad 0) (mip.ad 1) with e | rows
        · rw [he] at h
          have : e = "not implemented yet!" := by
            simpa [Except.map] using h
          have hne : e = "not working yet!" := by
            by_cases hp : plus = true ∧ 0 < order_inner
            · exact ((by simpa [trigTCalcShapeAD, hp] using he : "not working yet!" = e)).symm
            · simp [trigTCalcShapeAD, hp] at he
          rw [hne] at this
          exact absurd this (by decide)
        · rw [he] at h
          simp [Except.map] at h
      · intro h
        exact absurd h (by decide)
  · intro hc
    simp [trigCalcMappedDivShape, hc]

/-- C5 witness: the theorem applied to the concrete curved point (raises)
and the concrete affine point (returns the reference divergence rows). -/
theorem trig_mapped_divshape_curved_iff_witness :
    trigCalcMappedDivShape ![0, 1, 2] ![1, 0, 2] 1 false mipCurvedTest
      = .error "not implemented yet!" ∧
    trigCalcMappedDivShape ![0, 1, 2] ![1, 0, 2] 1 false mipAffineTest
      = (trigTCalcShapeAD ![0, 1, 2] ![1, 0, 2] 1 false
          (mipAffineTest.ad 0) (mipAffineTest.ad 1)).map (List.map SD2.div) :=
  ⟨(trig_mapped_divshape_curved_iff ![0, 1, 2] ![1, 0, 2] 1 false
      mipCurvedTest).1.mpr rfl,
   (trig_mapped_divshape_curved_iff ![0, 1, 2] ![1, 0, 2] 1 false
      mipAffineTest).2 rfl⟩

/-- C10: `CalcMappedShape` on the volume element never raises the
curved-element error, and its output depends on the mapped integration point
only through the point values and the Jacobian: the second derivatives of
the AD coordinates it builds are zero, so two mapped points agreeing in
value and Jacobian but differing in curvature data (map Hessian, curved
flag) produce identical mapped shape values. -/
theorem trig_mapped_shape_ignores_curvature (vnums order_facet : Fin 3 → ℕ)
    (order_inner : ℕ) (plus : Bool) (mip1 mip2 : MIP2)
    (hp : mip1.point = mip2.point) (hj : mip1.jac = mip2.jac) :
    trigCalcMappedShape vnums order_facet order_inner plus mip1
      = trigCalcMappedShape vnums order_facet order_inner plus mip2 ∧
    trigCalcMappedShape vnums order_facet order_inner plus mip1
      ≠ .error "not implemented yet!" := by
  constructor
  · have had : mip1.ad = mip2.ad := funext fun i => by simp [MIP2.ad, hp, hj]
    simp [trigCalcMappedShape, had]
  · simp only [trigCalcMappedShape]
    rcases he : trigTCalcShapeAD vnums order_facet order_inner plus
        (mip1.ad 0) (mip1.ad 1) with e | rows
    · have hne : e = "not working yet!" := by
        by_cases hpl : plus = true ∧ 0 < order_inner
        · exact ((by simpa [trigTCalcShapeAD, hpl] using he : "not working yet!" = e)).symm
        · simp [trigTCalcShapeAD, hpl] at he
      simp [Except.map, hne]
    · simp [Except.map]

/-- C10 witness: the concrete affine and curved points share value and
Jacobian, differ in map Hessian and curvature flag, and yield identical
mapped shape values; neither evaluation is the curved-element error. -/
theorem trig_mapped_shape_ignores_curvature_witness :
    mipAffineTest.point = mipCurvedTest.point ∧
    mipAffineTest.jac = mipCurvedTest.jac ∧
    mipAffineTest.hesse ≠ mipCurvedTest.hesse ∧
    mipAffineTest.curved ≠ mipCurvedTest.curved ∧
    trigCalcMappedShape ![0, 1, 2] ![1, 0, 2] 1 false mipAffineTest
      = trigCalcMappedShape ![0, 1, 2] ![1, 0, 2] 1 false mipCurvedTest ∧
    trigCalcMappedShape ![0, 1, 2] ![1, 0, 2] 1 false mipAffineTest
      ≠ .error "not implemented yet!" :=
  ⟨rfl, rfl,
   fun h => by
     have h5 : (0 : ℚ) = 5 := congrFun (congrFun (congrFun h 0) 0) 0
     exact absurd h5 (by norm_num),
   by decide,
   (trig_mapped_shape_ignores_curvature ![0, 1, 2] ![1, 0, 2] 1 false
      mipAffineTest mipCurvedTest rfl rfl).1,
   (trig_mapped_shape_ignores_curvature ![0, 1, 2] ![1, 0, 2] 1 false
      mipAffineTest mipCurvedTest rfl rfl).2⟩

lemma pderiv_pderiv_comm (i j : Fin 2) (p : P2) :
    pderiv i (pderiv j p) = pderiv j (pderiv i p) := by
  induction p using MvPolynomial.induction_on with
  | h_C a => simp [pderiv_C]
  | h_add p r hp hr => simp [map_add, hp, hr]
  | h_X p n ih =>
    have hXdd : ∀ a b : Fin 2, pderiv a (pderiv b (X n : P2)) = 0 := by
      intro a b
      rcases eq_or_ne n b with rfl | h
      · simp [pderiv_X_self, pderiv_one]
      · simp [pderiv_X_of_ne h]
    simp only [pderiv_mul, map_add, ih, hXdd]
    ring

lemma pdy_pdx (p : P2) : pdy (pdx p) = pdx (pdy p) :=
  pderiv_pderiv_comm 1 0 p

lemma pdx_add (p r : P2) : pdx (p + r) = pdx p + pdx r := map_add _ _ _

lemma pdx_sub (p r : P2) : pdx (p - r) = pdx p - pdx r := map_sub _ _ _

lemma pdx_neg (p : P2) : pdx (-p) = -pdx p := map_neg _ _

lemma pdx_mul (p r : P2) : pdx (p * r) = pdx p * r + p * pdx r := pderiv_mul

lemma pdy_add (p r : P2) : pdy (p + r) = pdy p + pdy r := map_add _ _ _

lemma pdy_sub (p r : P2) : pdy (p - r) = pdy p - pdy r := map_sub _ _ _

lemma pdy_neg (p : P2) : pdy (-p) = -pdy p := map_neg _ _

lemma pdy_mul (p r : P2) : pdy (p * r) = pdy p * r + p * pdy r := pderiv_mul

lemma rowDiv_sigmaGradvField (v : P2) (i : Fin 2) :
    rowDiv (sigmaGradvField v) i = 0 := by
  fin_cases i <;>
  · simp only [rowDiv, sigmaGradvField, pdx_add, pdx_sub, pdx_neg, pdx_mul,
      pdy_add, pdy_sub, pdy_neg, pdy_mul, pdy_pdx]
    ring

lemma rowDiv_sigmaGraduVField (u v : P2) (i : Fin 2) :
    rowDiv (sigmaGraduVField u v) i = 0 := by
  fin_cases i <;>
  · simp only [rowDiv, sigmaGraduVField, pdx_add, pdx_sub, pdx_neg, pdx_mul,
      pdy_add, pdy_sub, pdy_neg, pdy_mul, pdy_pdx]
    ring

lemma rowDiv_curlField (u v : P2) (i : Fin 2) :
    rowDiv (curlField u v) i = curlDivClosedField u v i := by
  fin_cases i <;>
  · simp only [rowDiv, curlField, curlDivClosedField, pdx_add, pdx_sub,
      pdx_neg, pdx_mul, pdy_add, pdy_sub, pdy_neg, pdy_mul, pdy_pdx]
    ring

lemma rowDiv_type4Field (l1 l2 v : P2) (i : Fin 2) :
    rowDiv (type4Field l1 l2 v) i = 0 := by
  fin_cases i <;>
  · simp only [rowDiv, type4Field, pdx_add, pdx_sub, pdx_neg, pdx_mul,
      pdy_add, pdy_sub, pdy_neg, pdy_mul, pdy_pdx]
    ring

/-- C4: for every pair of twice-differentiable polynomial input fields
(`u`, `v`; a single field `v` for the edge family; `l1, l2, v` for
`T_type4`), the `DivShape()` of each 2D building block `Sigma_gradv`,
`Sigma_gradu_v`, `Curlgraduv_graducurlv` and `T_type4` equals the exact
row-wise divergence of the field obtained by evaluating `Shape()` at every
point (the stated polynomial shape fields agree with `Shape()` pointwise,
and `DivShape()` is their divergence); in particular `DivShape()` is the
zero vector for `Sigma_gradv`, `Sigma_gradu_v`, `T_type4`, and for
`Curlgraduv_graducurlv` it is the closed form
`-2·(-uxx·vy + uxy·vx, -uxy·vy + uyy·vx)`. -/
theorem building_blocks_divshape_exact (u v l1 l2 : P2) (q : Fin 2 → ℚ) :
    ((∀ k, (Sigma_gradv.Shape (ad2OfPoly v q)).get k
        = eval q (sigmaGradvField v k)) ∧
     (∀ i, (Sigma_gradv.DivShape (ad2OfPoly v q)).get i
        = eval q (rowDiv (sigmaGradvField v) i))) ∧
    ((∀ k, (Sigma_gradu_v.Shape (ad2OfPoly u q) (ad2OfPoly v q)).get k
        = eval q (sigmaGraduVField u v k)) ∧
     (∀ i, (Sigma_gradu_v.DivShape (ad2OfPoly u q) (ad2OfPoly v q)).get i
        = eval q (rowDiv (sigmaGraduVField u v) i))) ∧
    ((∀ k, (Curlgraduv_graducurlv.Shape (ad2OfPoly u q) (ad2OfPoly v q)).get k
        = eval q (curlField u v k)) ∧
     (∀ i, (Curlgraduv_graducurlv.DivShape (ad2OfPoly u q) (ad2OfPoly v q)).get i
        = eval q (rowDiv (curlField u v) i))) ∧
    ((∀ k, (T_type4.Shape (ad2OfPoly l1 q) (ad2OfPoly l2 q) (ad2OfPoly v q)).get k
        = eval q (type4Field l1 l2 v k)) ∧
     (∀ i, (T_type4.DivShape (ad2OfPoly l1 q) (ad2OfPoly l2 q) (ad2OfPoly v q)).get i
        = eval q (rowDiv (type4Field l1 l2 v) i))) := by
  refine ⟨⟨?_, ?_⟩, ⟨?_, ?_⟩, ⟨?_, ?_⟩, ⟨?_, ?_⟩⟩
  · intro k
    fin_cases k <;>
    · simp only [Sigma_gradv.Shape, ad2OfPoly, Vec4.get, sigmaGradvField,
        Matrix.cons_val_zero, Matrix.cons_val_one, Matrix.head_cons,
        Matrix.cons_val_two, Matrix.tail_cons, Matrix.cons_val_three,
        map_add, map_sub, map_neg, map_mul]
  · intro i
    fin_cases i <;>
    · rw [rowDiv_sigmaGradvField]
      simp [Sigma_gradv.DivShape, Vec2.get]
  · intro k
    fin_cases k <;>
    · simp only [Sigma_gradu_v.Shape, ad2OfPoly, Vec4.get, sigmaGraduVField,
        Matrix.cons_val_zero, Matrix.cons_val_one, Matrix.head_cons,
        Matrix.cons_val_two, Matrix.tail_cons, Matrix.cons_val_three,
        map_add, map_sub, map_neg, map_mul]
  · intro i
    fin_cases i <;>
    · rw [rowDiv_sigmaGraduVField]
      simp [Sigma_gradu_v.DivShape, Vec2.get]
  · intro k
    fin_cases k <;>
    · simp only [Curlgraduv_graducurlv.Shape, ad2OfPoly, Vec4.get, curlField,
        Matrix.cons_val_zero, Matrix.cons_val_one, Matrix.head_cons,
        Matrix.cons_val_two, Matrix.tail_cons, Matrix.cons_val_three,
        map_add, map_sub, map_neg, map_mul]
  · intro i
    rw [rowDiv_curlField]
    fin_cases i <;>
    · simp only [Curlgraduv_graducurlv.DivShape, ad2OfPoly, Vec2.get,
        curlDivClosedField, map_add, map_sub, map_neg, map_mul, map_ofNat]
  · intro k
    fin_cases k <;>
    · simp only [T_type4.Shape, ad2OfPoly, Vec4.get, type4Field,
        map_add, map_sub, map_neg, map_mul]
  · intro i
    fin_cases i <;>
    · rw [rowDiv_type4Field]
      simp [T_type4.DivShape, Vec2.get]

/-- C6: querying the divergence of the surface/trace building block
(`T_Dl1_o_Dl2xDl3_v_surf::DivShape`, used by the surface trace elements)
raises the explicit `"not available on surface"` error on every input and
never returns numeric data. -/
theorem surface_divshape_always_raises (l1 l2 l3 v : AD2) :
    T_Dl1_o_Dl2xDl3_v_surf.DivShape l1 l2 l3 v = .error "not available on surface" ∧
    ∀ w : Vec2, T_Dl1_o_Dl2xDl3_v_surf.DivShape l1 l2 l3 v ≠ .ok w := by
  exact ⟨rfl, fun w h => by simp [T_Dl1_o_Dl2xDl3_v_surf.DivShape] at h⟩

/-- C7 counterexample: the generic (non-element-kind-specialized) base
`ComputeNDof` does NOT raise an error — it returns normally (the result is
`.ok`, refuting the claim that an "unsupported operation" error is raised). -/
theorem base_computendof_returns_normally :
    (T_HCurlDivFE_base_ComputeNDof 0).isOk = true ∧
    (T_HCurlDivSurfaceFE_base_ComputeNDof 0).isOk = true := by
  decide

/-- C7 amended: calling `ComputeNDof` on the generic volume or surface base
prints a distinguishable error message to standard output but returns
normally, leaving `ndof` unchanged at zero. -/
theorem base_computendof_prints_and_returns :
    T_HCurlDivFE_base_ComputeNDof 0 =
      .ok (0, ["Error, T_HCurlDivFE<ET>:: ComputeNDof not available, only for ET == TRIG"]) ∧
    T_HCurlDivSurfaceFE_base_ComputeNDof 0 =
      .ok (0, ["Error, T_HCurlDivSurfaceFE<ET>:: ComputeNDof not available for base class"]) := by
  exact ⟨rfl, rfl⟩

end HCurlDiv
